import Mathlib

/-!
Shallow embedding of the cloud-finops analysis core
(`cloud_finops/analyzers/{cost_analyzer,resource_analyzer,optimizer}.py`)
and proofs about its classification and recommendation logic.

Modelling conventions:
* Python `float` is modelled as `ℚ` (exact arithmetic; the source performs
  no rounding-sensitive computation on the properties verified here).
* Python `dict` is modelled as an insertion-ordered association list; key
  lookup returns the value of the first (unique) matching key.
* Python truthiness of an optional mapping (`if resource.metadata:`) is
  `Option`-present *and* non-empty, which the source relies on.
* `metadata` values are strings or numbers (`MetaVal`); the source would
  raise on other shapes, which are outside the modelled domain.
-/

set_option allowUnsafeReducibility true

attribute [local semireducible] Rat.add Rat.mul Rat.inv Rat.sub Rat.div

namespace CloudFinops

/-- A metadata value: the source stores strings (lifecycle state, instance
size class) and numbers (`size_gb`) in the open `metadata` mapping. -/
inductive MetaVal where
  | str (s : String)
  | num (q : ℚ)
deriving DecidableEq, Repr

/-- Python truthiness of a metadata value: empty string and zero are falsy. -/
def MetaVal.truthy : MetaVal → Bool
  | .str s => s ≠ ""
  | .num q => q ≠ 0

/-- First-match association-list lookup, the model of `dict` access. -/
def alookup [DecidableEq κ] (k : κ) : List (κ × α) → Option α
  | [] => none
  | (k', v) :: l => if k' = k then some v else alookup k l

/-- `d.get(k, default)` on a plain mapping. -/
def dictGet [DecidableEq κ] (l : List (κ × α)) (k : κ) (d : α) : α :=
  (alookup k l).getD d

/-- `str.lower()`: lowercase each character (structural form of
`String.toLower`, so that concrete instances evaluate). -/
def pyLower (s : String) : String :=
  ⟨s.data.map Char.toLower⟩

/-- `Resource` from `providers/aws_provider.py` (shared by all providers). -/
structure Resource where
  resource_id : String
  resource_type : String
  region : String
  cost : ℚ
  tags : List (String × String)
  utilization : Option (List (String × ℚ)) := none
  metadata : Option (List (String × MetaVal)) := none
deriving DecidableEq, Repr

/-- Truthiness of `resource.utilization`: present and non-empty. -/
def utilTruthy (r : Resource) : Bool :=
  match r.utilization with
  | none => false
  | some u => !u.isEmpty

/-- Truthiness of `resource.metadata`: present and non-empty. -/
def metaTruthy (r : Resource) : Bool :=
  match r.metadata with
  | none => false
  | some m => !m.isEmpty

/-- `resource.utilization.get(k, 0)`; only reached by the source under a
`utilTruthy` guard, total here with 0 for an absent mapping. -/
def uGet (r : Resource) (k : String) : ℚ :=
  match r.utilization with
  | none => 0
  | some u => dictGet u k 0

/-- `resource.metadata.get(k, '')` read as a string (the source calls
`.lower()` on it; a non-string value would raise there and is outside the
modelled domain). -/
def mGetStr (r : Resource) (k : String) : String :=
  match r.metadata with
  | none => ""
  | some m =>
    match alookup k m with
    | some (.str s) => s
    | some (.num _) => ""
    | none => ""

/-- `resource.metadata.get(k, 0)` read as a number (the source compares it
with `>`; a string value would raise there and is outside the modelled
domain). -/
def mGetNum (r : Resource) (k : String) : ℚ :=
  match r.metadata with
  | none => 0
  | some m =>
    match alookup k m with
    | some (.num q) => q
    | some (.str _) => 0
    | none => 0

/-- `resource.metadata.get(k)` with no default, as an optional value. -/
def mGetOpt (r : Resource) (k : String) : Option MetaVal :=
  match r.metadata with
  | none => none
  | some m => alookup k m

/-- Python `a or b` on optional metadata values: keep `a` when truthy. -/
def pyOr (a b : Option MetaVal) : Option MetaVal :=
  match a with
  | some v => if v.truthy then some v else b
  | none => b

/-- Truthiness of an optional metadata value. -/
def optTruthy : Option MetaVal → Bool
  | none => false
  | some v => v.truthy

/-- `metadata.get('instance_type') or metadata.get('vm_size') or
metadata.get('machine_type')`, the instance-size descriptor chain used by
the resource analyzer and the optimizer. -/
def resolvedSizeDesc (r : Resource) : Option MetaVal :=
  pyOr (mGetOpt r "instance_type") (pyOr (mGetOpt r "vm_size") (mGetOpt r "machine_type"))

/-- Substring test on character lists (model of Python `pat in s`). -/
def containsSub (s pat : String) : Bool :=
  (List.range (s.data.length + 1)).any (fun i => pat.data.isPrefixOf (s.data.drop i))

/-! ### Resource analyzer (`analyzers/resource_analyzer.py`) -/

/-- `ResourceAnalysis` dataclass. -/
structure ResourceAnalysis where
  total_resources : Nat
  unused_resources : List Resource
  underutilized_resources : List Resource
  overprovisioned_resources : List Resource
  idle_resources : List Resource
  resources_by_type : List (String × Nat)
  average_utilization : List (String × ℚ)
deriving DecidableEq, Repr

/-- The stopped/terminated-metadata branch of `_find_unused_resources`:
`state in ['stopped', 'terminated'] or status in ['stopped', 'deallocated']`
under the `if resource.metadata:` guard. -/
def unusedByMetadata (r : Resource) : Bool :=
  metaTruthy r &&
    (["stopped", "terminated"].contains (pyLower (mGetStr r "state")) ||
     ["stopped", "deallocated"].contains (pyLower (mGetStr r "status")))

/-- The zero-utilization test shared verbatim by `_find_unused_resources`
and `_find_idle_resources`: `cpu == 0 and invocations == 0` under the
`if resource.utilization:` guard. -/
def zeroUtilization (r : Resource) : Bool :=
  utilTruthy r && decide (uGet r "cpu_percent" = 0) && decide (uGet r "invocations" = 0)

/-- `ResourceAnalyzer._find_unused_resources`. -/
def findUnusedResources (resources : List Resource) : List Resource :=
  resources.filter (fun r => unusedByMetadata r || zeroUtilization r)

/-- `ResourceAnalyzer._find_underutilized_resources`. -/
def findUnderutilizedResources (cpu_threshold : ℚ) (resources : List Resource) : List Resource :=
  resources.filter (fun r =>
    utilTruthy r && decide (0 < uGet r "cpu_percent") &&
      decide (uGet r "cpu_percent" < cpu_threshold))

/-- `ResourceAnalyzer._find_overprovisioned_resources`. -/
def findOverprovisionedResources (resources : List Resource) : List Resource :=
  resources.filter (fun r =>
    utilTruthy r && metaTruthy r && decide (uGet r "cpu_percent" < 30) &&
      optTruthy (resolvedSizeDesc r) &&
      (match resolvedSizeDesc r with
       | some (.str s) =>
         ["xlarge", "2xlarge", "4xlarge", "8xlarge"].any (fun sz => containsSub (pyLower s) sz)
       | _ => false))

/-- `ResourceAnalyzer._find_idle_resources`. -/
def findIdleResources (resources : List Resource) : List Resource :=
  resources.filter zeroUtilization

/-- One step of insertion-ordered grouped accumulation, the model of
`d.setdefault(k, []).append(v)`-style dict building used throughout the
source. -/
def dictAppend [DecidableEq κ] (acc : List (κ × List α)) (k : κ) (v : α) :
    List (κ × List α) :=
  if acc.any (fun p => decide (p.1 = k)) then
    acc.map (fun p => if p.1 = k then (p.1, p.2 ++ [v]) else p)
  else
    acc ++ [(k, [v])]

/-- Group a list by a key, keys in first-occurrence order (Python dict
insertion order), values in original order. -/
def groupByKey [DecidableEq κ] (key : α → κ) (l : List α) : List (κ × List α) :=
  l.foldl (fun acc x => dictAppend acc (key x) x) []

/-- `ResourceAnalyzer._count_by_type`. -/
def countByType (resources : List Resource) : List (String × Nat) :=
  resources.foldl
    (fun acc r =>
      if acc.any (fun p => decide (p.1 = r.resource_type)) then
        acc.map (fun p => if p.1 = r.resource_type then (p.1, p.2 + 1) else p)
      else
        acc ++ [(r.resource_type, 1)])
    []

/-- The `utilization_by_type` accumulation loop of
`_calculate_average_utilization`: per type, the cpu samples of resources
reporting a (truthy) utilization mapping. -/
def utilizationByType (resources : List Resource) : List (String × List ℚ) :=
  resources.foldl
    (fun acc r =>
      if utilTruthy r then dictAppend acc r.resource_type (uGet r "cpu_percent") else acc)
    []

/-- `ResourceAnalyzer._calculate_average_utilization`. -/
def calculateAverageUtilization (resources : List Resource) : List (String × ℚ) :=
  (utilizationByType resources).filterMap
    (fun p => if p.2.isEmpty then none else some (p.1, p.2.sum / (p.2.length : ℚ)))

/-- `ResourceAnalyzer.analyze` (the `idle_days` configuration field is
unused by the categorization logic and omitted). -/
def resourceAnalyze (cpu_threshold : ℚ) (resources : List Resource) : ResourceAnalysis :=
  { total_resources := resources.length
    unused_resources := findUnusedResources resources
    underutilized_resources := findUnderutilizedResources cpu_threshold resources
    overprovisioned_resources := findOverprovisionedResources resources
    idle_resources := findIdleResources resources
    resources_by_type := countByType resources
    average_utilization := calculateAverageUtilization resources }

/-! ### Cost analyzer (`analyzers/cost_analyzer.py`) -/

/-- `CostData` dataclass (timestamps modelled as integers; only carried
through). -/
structure CostData where
  start_date : Int
  end_date : Int
  total_cost : ℚ
  costs_by_service : List (String × ℚ)
  costs_by_region : List (String × ℚ)
  resources : List Resource
deriving DecidableEq, Repr

/-- A cost anomaly: `type`/`severity`/optional `service`/`value` fields of
the anomaly dicts built by `_detect_anomalies` (the human-readable
`message` string is presentation-only and omitted). -/
structure Anomaly where
  atype : String
  severity : String
  service : Option String
  value : ℚ
deriving DecidableEq, Repr

/-- `CostAnalysis` dataclass. -/
structure CostAnalysis where
  total_cost : ℚ
  costs_by_service : List (String × ℚ)
  costs_by_region : List (String × ℚ)
  top_cost_drivers : List (String × ℚ × ℚ)
  cost_trend : String
  anomalies : List Anomaly
  period_start : Int
  period_end : Int
deriving DecidableEq, Repr

/-- `sorted(items, key=..., reverse=True)`: Python's stable sort,
descending by a rational key, modelled by stable insertion sort with the
relation "key of the left is at least key of the right". -/
def sortByKeyDesc (key : α → ℚ) (l : List α) : List α :=
  List.insertionSort (fun a b => key b ≤ key a) l

/-- `CostAnalyzer._get_top_cost_drivers` (with the default `top_n = 10`,
the only way the source calls it). -/
def getTopCostDrivers (costs_by_service : List (String × ℚ)) (total_cost : ℚ) :
    List (String × ℚ × ℚ) :=
  if total_cost = 0 then []
  else
    ((sortByKeyDesc (fun p => p.2) costs_by_service).take 10).map
      (fun p => (p.1, p.2, p.2 / total_cost * 100))

/-- `CostAnalyzer._detect_anomalies`. -/
def detectAnomalies (cost_data : CostData) : List Anomaly :=
  (if decide (10000 < cost_data.total_cost) then
    [{ atype := "high_total_cost", severity := "warning", service := none,
       value := cost_data.total_cost }]
  else []) ++
  (let avg_service_cost : ℚ :=
    if cost_data.costs_by_service.isEmpty then 0
    else cost_data.total_cost / (cost_data.costs_by_service.length : ℚ)
  cost_data.costs_by_service.filterMap
    (fun p =>
      if decide (avg_service_cost * 3 < p.2) then
        some { atype := "high_service_cost", severity := "info", service := some p.1,
               value := p.2 }
      else none))

/-- `CostAnalyzer.analyze`. -/
def costAnalyze (cost_data : CostData) : CostAnalysis :=
  { total_cost := cost_data.total_cost
    costs_by_service := cost_data.costs_by_service
    costs_by_region := cost_data.costs_by_region
    top_cost_drivers := getTopCostDrivers cost_data.costs_by_service cost_data.total_cost
    cost_trend := "stable"
    anomalies := detectAnomalies cost_data
    period_start := cost_data.start_date
    period_end := cost_data.end_date }

/-! ### Optimizer (`analyzers/optimizer.py`) -/

/-- `RecommendationType` enum. -/
inductive RecommendationType where
  | terminate_unused
  | stop_idle
  | downsize
  | schedule_stop
  | move_storage
  | delete_unused
  | reserved_instance
deriving DecidableEq, Repr

/-- `RecommendationPriority` enum. -/
inductive RecommendationPriority where
  | high
  | medium
  | low
deriving DecidableEq, Repr

/-- `OptimizationRecommendation` dataclass (the nested `details` mapping is
a renderer-only payload duplicating the other fields and is omitted). -/
structure OptimizationRecommendation where
  title : String
  description : String
  recommendation_type : RecommendationType
  priority : RecommendationPriority
  estimated_savings : ℚ
  action : String
  resources : List String
  risk_level : String
deriving DecidableEq, Repr

/-- Rendering of a metadata value into an interpolated string. -/
def MetaVal.show : MetaVal → String
  | .str s => s
  | .num q => toString q

/-- `Optimizer._is_non_production`. -/
def isNonProduction (r : Resource) : Bool :=
  ["dev", "development", "test", "staging", "qa"].contains (pyLower (dictGet r.tags "environment" "")) ||
  ["dev", "development", "test", "staging", "qa"].contains (pyLower (dictGet r.tags "Environment" "")) ||
  ["dev", "development", "test", "staging", "qa"].contains (pyLower (dictGet r.tags "env" ""))

/-- `Optimizer._recommend_terminate_unused`. -/
def recommendTerminateUnused (savings_threshold : ℚ) (unused_resources : List Resource) :
    List OptimizationRecommendation :=
  (groupByKey (fun r => r.resource_type) unused_resources).filterMap
    (fun g =>
      let total_savings := (g.2.map (fun r => r.cost)).sum
      if decide (savings_threshold ≤ total_savings) then
        some
          { title := "Terminate Unused " ++ g.1 ++ " Resources"
            description := "Found " ++ toString g.2.length ++ " unused " ++ g.1 ++
              " resources that can be terminated"
            recommendation_type := .terminate_unused
            priority := if decide (500 < total_savings) then .high else .medium
            estimated_savings := total_savings
            action := "Terminate " ++ toString g.2.length ++ " unused " ++ g.1 ++ " resources"
            resources := g.2.map (fun r => r.resource_id)
            risk_level :=
              if ["EC2", "VirtualMachine", "ComputeEngine"].contains g.1 then "low"
              else "medium" }
      else none)

/-- `Optimizer._recommend_stop_idle`. -/
def recommendStopIdle (savings_threshold : ℚ) (idle_resources : List Resource) :
    List OptimizationRecommendation :=
  let non_prod_resources := idle_resources.filter isNonProduction
  if non_prod_resources.isEmpty then []
  else
    let total_savings := (non_prod_resources.map (fun r => r.cost * (7 / 10))).sum
    if decide (savings_threshold ≤ total_savings) then
      [{ title := "Stop Idle Development/Test Resources"
         description := "Found " ++ toString non_prod_resources.length ++
           " idle non-production resources"
         recommendation_type := .stop_idle
         priority := .medium
         estimated_savings := total_savings
         action := "Stop " ++ toString non_prod_resources.length ++ " idle resources"
         resources := non_prod_resources.map (fun r => r.resource_id)
         risk_level := "low" }]
    else []

/-- The grouping key of `_recommend_downsize`:
`instance_type or vm_size or machine_type or 'unknown'`. -/
def downsizeKey (r : Resource) : MetaVal :=
  (pyOr (resolvedSizeDesc r) (some (.str "unknown"))).getD (.str "unknown")

/-- `Optimizer._recommend_downsize`. -/
def recommendDownsize (savings_threshold : ℚ) (overprovisioned_resources : List Resource) :
    List OptimizationRecommendation :=
  (groupByKey downsizeKey overprovisioned_resources).filterMap
    (fun g =>
      let total_current_cost := (g.2.map (fun r => r.cost)).sum
      let estimated_savings := total_current_cost * (4 / 10)
      if decide (savings_threshold ≤ estimated_savings) then
        some
          { title := "Downsize Over-provisioned Resources (" ++ g.1.show ++ ")"
            description := "Found " ++ toString g.2.length ++ " resources that can be downsized"
            recommendation_type := .downsize
            priority := .medium
            estimated_savings := estimated_savings
            action := "Downsize " ++ toString g.2.length ++ " resources from " ++ g.1.show ++
              " to smaller instance types"
            resources := g.2.map (fun r => r.resource_id)
            risk_level := "medium" }
      else none)

/-- `Optimizer._recommend_schedule_stop`. -/
def recommendScheduleStop (savings_threshold : ℚ) (resources : List Resource) :
    List OptimizationRecommendation :=
  let non_prod_resources := resources.filter isNonProduction
  if non_prod_resources.isEmpty then []
  else
    let total_cost := (non_prod_resources.map (fun r => r.cost)).sum
    let estimated_savings := total_cost * (3 / 10)
    if decide (savings_threshold ≤ estimated_savings) then
      [{ title := "Schedule Stop for Non-Critical Environments"
         description := "Schedule automatic stop for " ++ toString non_prod_resources.length ++
           " non-production resources during off-hours"
         recommendation_type := .schedule_stop
         priority := .low
         estimated_savings := estimated_savings
         action := "Schedule stop for " ++ toString non_prod_resources.length ++
           " resources during weekends/off-hours"
         resources := non_prod_resources.map (fun r => r.resource_id)
         risk_level := "low" }]
    else []

/-- `Optimizer._recommend_move_storage`. -/
def recommendMoveStorage (savings_threshold : ℚ) (resources : List Resource) :
    List OptimizationRecommendation :=
  let storage_resources :=
    resources.filter (fun r => ["S3", "StorageAccount", "CloudStorage"].contains r.resource_type)
  let old_storage :=
    storage_resources.filter (fun r => metaTruthy r && decide (100 < mGetNum r "size_gb"))
  if old_storage.isEmpty then []
  else
    let total_cost := (old_storage.map (fun r => r.cost)).sum
    let estimated_savings := total_cost * (5 / 10)
    if decide (savings_threshold ≤ estimated_savings) then
      [{ title := "Move Storage to Cheaper Tiers"
         description := "Move " ++ toString old_storage.length ++
           " storage buckets to cheaper storage classes"
         recommendation_type := .move_storage
         priority := .low
         estimated_savings := estimated_savings
         action := "Move " ++ toString old_storage.length ++
           " storage buckets to Glacier/Archive tier"
         resources := old_storage.map (fun r => r.resource_id)
         risk_level := "low" }]
    else []

/-- The five generators of `Optimizer.get_recommendations`, concatenated
in generator order. -/
def generatedRecommendations (savings_threshold : ℚ) (resource_analysis : ResourceAnalysis)
    (resources : List Resource) : List OptimizationRecommendation :=
  recommendTerminateUnused savings_threshold resource_analysis.unused_resources ++
  recommendStopIdle savings_threshold resource_analysis.idle_resources ++
  recommendDownsize savings_threshold resource_analysis.overprovisioned_resources ++
  recommendScheduleStop savings_threshold resources ++
  recommendMoveStorage savings_threshold resources

/-- `Optimizer.get_recommendations`: generate, filter by the savings
threshold, stable-sort descending by estimated savings. The
`cost_analysis` argument is accepted and unused, as in the source. -/
def getRecommendations (savings_threshold : ℚ) (cost_analysis : CostAnalysis)
    (resource_analysis : ResourceAnalysis) (resources : List Resource) :
    List OptimizationRecommendation :=
  sortByKeyDesc (fun r => r.estimated_savings)
    ((generatedRecommendations savings_threshold resource_analysis resources).filter
      (fun r => decide (savings_threshold ≤ r.estimated_savings)))

/-! ### Helper lemmas: the stable descending sort -/

/-- `sortByKeyDesc` permutes its input. -/
theorem sortByKeyDesc_perm (key : α → ℚ) (l : List α) :
    List.Perm (sortByKeyDesc key l) l :=
  List.perm_insertionSort _ l

/-- Membership is preserved by `sortByKeyDesc`. -/
theorem mem_sortByKeyDesc {key : α → ℚ} {l : List α} {x : α} :
    x ∈ sortByKeyDesc key l ↔ x ∈ l :=
  List.mem_insertionSort _

/-- The output of `sortByKeyDesc` is descending in the key. -/
theorem sortByKeyDesc_pairwise (key : α → ℚ) (l : List α) :
    (sortByKeyDesc key l).Pairwise (fun a b => key b ≤ key a) := by
  haveI : IsTotal α (fun a b => key b ≤ key a) := ⟨fun a b => le_total (key b) (key a)⟩
  haveI : IsTrans α (fun a b => key b ≤ key a) := ⟨fun _ _ _ h₁ h₂ => le_trans h₂ h₁⟩
  exact List.sorted_insertionSort _ l

/-- Inserting never reorders the elements of any one key class: filtering
by an exact key value commutes with `orderedInsert`. -/
theorem filter_key_orderedInsert (key : α → ℚ) (s : ℚ) (x : α) (l : List α) :
    (List.orderedInsert (fun a b => key b ≤ key a) x l).filter
        (fun a => decide (key a = s)) =
      (x :: l).filter (fun a => decide (key a = s)) := by
  induction l with
  | nil => simp [List.orderedInsert]
  | cons y ys ih =>
    rw [List.orderedInsert]
    by_cases h : key y ≤ key x
    · rw [if_pos h]
    · rw [if_neg h]
      have hx : key x < key y := lt_of_not_le h
      rw [List.filter_cons, List.filter_cons, ih, List.filter_cons, List.filter_cons]
      by_cases hy : key y = s <;> by_cases hxs : key x = s <;> simp [hy, hxs]
      exact absurd (hxs.trans hy.symm) (ne_of_lt hx)

/-- Stability of `sortByKeyDesc`: elements sharing a key value keep their
original relative order. -/
theorem filter_key_sortByKeyDesc (key : α → ℚ) (s : ℚ) (l : List α) :
    (sortByKeyDesc key l).filter (fun a => decide (key a = s)) =
      l.filter (fun a => decide (key a = s)) := by
  induction l with
  | nil => rfl
  | cons x xs ih =>
    rw [sortByKeyDesc, List.insertionSort, filter_key_orderedInsert, List.filter_cons]
    rw [show List.insertionSort (fun a b => key b ≤ key a) xs = sortByKeyDesc key xs from rfl]
    rw [ih]
    simp [List.filter_cons]

/-! ### Helper lemmas: insertion-ordered grouped accumulation -/

/-- The value list stored for a key in a grouped accumulator. -/
def valsOf [DecidableEq κ] (acc : List (κ × List α)) (t : κ) : List α :=
  (alookup t acc).getD []

theorem alookup_append_of_some [DecidableEq κ] {k : κ} {l₁ l₂ : List (κ × α)} {v : α}
    (h : alookup k l₁ = some v) : alookup k (l₁ ++ l₂) = some v := by
  induction l₁ with
  | nil => simp [alookup] at h
  | cons p ps ih =>
    rw [List.cons_append, alookup] at *
    by_cases hp : p.1 = k <;> simp [hp] at h ⊢ <;> simp_all

theorem alookup_append_of_none [DecidableEq κ] {k : κ} {l₁ l₂ : List (κ × α)}
    (h : alookup k l₁ = none) : alookup k (l₁ ++ l₂) = alookup k l₂ := by
  induction l₁ with
  | nil => simp
  | cons p ps ih =>
    rw [List.cons_append, alookup] at *
    by_cases hp : p.1 = k <;> simp [hp] at h ⊢ <;> simp_all

theorem alookup_map_update [DecidableEq κ] (k t : κ) (f : α → α) (l : List (κ × α)) :
    alookup t (l.map (fun p => if p.1 = k then (p.1, f p.2) else p)) =
      if k = t then (alookup t l).map f else alookup t l := by
  induction l with
  | nil => by_cases h : k = t <;> simp [alookup, h]
  | cons p ps ih =>
    obtain ⟨k', v⟩ := p
    have hmap : List.map (fun p => if p.1 = k then (p.1, f p.2) else p) ((k', v) :: ps) =
        (if k' = k then ((k' : κ), f v) else (k', v)) ::
          List.map (fun p => if p.1 = k then (p.1, f p.2) else p) ps := rfl
    rw [hmap]
    by_cases h1 : k' = k
    · rw [if_pos h1]
      simp only [alookup]
      by_cases h2 : k' = t
      · have hkt : k = t := h1.symm.trans h2
        simp [h2, hkt]
      · have hkt : ¬k = t := fun h => h2 (h1.trans h)
        simp [h2, hkt, ih]
    · rw [if_neg h1]
      simp only [alookup]
      by_cases h2 : k' = t
      · have hkt : ¬k = t := fun h => h1 (h2.trans h.symm)
        simp [h2, hkt]
      · simp [h2, ih]

theorem alookup_eq_none_of_any_eq_false [DecidableEq κ] {k : κ} {l : List (κ × α)}
    (h : l.any (fun p => decide (p.1 = k)) = false) : alookup k l = none := by
  induction l with
  | nil => rfl
  | cons p ps ih =>
    simp only [List.any_cons, Bool.or_eq_false_iff] at h
    rw [alookup]
    have : ¬p.1 = k := by simpa using h.1
    simp [this, ih h.2]

theorem alookup_isSome_of_any_eq_true [DecidableEq κ] {k : κ} {l : List (κ × α)}
    (h : l.any (fun p => decide (p.1 = k)) = true) : (alookup k l).isSome = true := by
  induction l with
  | nil => simp at h
  | cons p ps ih =>
    simp only [List.any_cons, Bool.or_eq_true] at h
    rw [alookup]
    by_cases hp : p.1 = k
    · simp [hp]
    · simp only [hp, if_false]
      exact ih (h.resolve_left (by simpa using hp))

/-- Appending one value to a grouped accumulator extends exactly its key's
class and leaves every other class unchanged. -/
theorem valsOf_dictAppend [DecidableEq κ] (acc : List (κ × List α)) (k : κ) (v : α) (t : κ) :
    valsOf (dictAppend acc k v) t = valsOf acc t ++ (if k = t then [v] else []) := by
  rw [dictAppend]
  by_cases hany : acc.any (fun p => decide (p.1 = k)) = true
  · rw [if_pos hany]
    rw [valsOf, alookup_map_update k t (fun l => l ++ [v]) acc]
    by_cases ht : k = t
    · subst ht
      have hs := alookup_isSome_of_any_eq_true hany
      obtain ⟨w, hw⟩ := Option.isSome_iff_exists.mp hs
      simp [valsOf, hw]
    · simp [ht, valsOf]
  · rw [if_neg hany]
    have hnone : alookup k acc = none :=
      alookup_eq_none_of_any_eq_false (Bool.not_eq_true _ ▸ hany)
    by_cases ht : k = t
    · subst ht
      rw [valsOf, alookup_append_of_none hnone]
      simp [alookup, valsOf, hnone]
    · rw [valsOf, valsOf]
      rcases ho : alookup t acc with _ | w
      · rw [alookup_append_of_none ho]
        simp [alookup, ht]
      · rw [alookup_append_of_some ho]
        simp [ht]

/-- The cpu samples accumulated for a type by the `utilization_by_type`
loop are exactly the cpu readings, in order, of the resources of that type
reporting a (truthy) utilization mapping. -/
theorem valsOf_utilizationByType_foldl (rs : List Resource) :
    ∀ (acc : List (String × List ℚ)) (t : String),
      valsOf (rs.foldl
          (fun acc r =>
            if utilTruthy r then dictAppend acc r.resource_type (uGet r "cpu_percent") else acc)
          acc) t =
        valsOf acc t ++
          (rs.filter (fun r => utilTruthy r && decide (r.resource_type = t))).map
            (fun r => uGet r "cpu_percent") := by
  induction rs with
  | nil => intro acc t; simp
  | cons r rs ih =>
    intro acc t
    rw [List.foldl_cons, ih]
    by_cases hu : utilTruthy r
    · rw [if_pos hu, valsOf_dictAppend]
      by_cases ht : r.resource_type = t
      · simp [List.filter_cons, hu, ht]
      · simp [List.filter_cons, hu, ht]
    · rw [if_neg hu]
      simp [List.filter_cons, hu]

/-- Specialization of the previous lemma to `utilizationByType`. -/
theorem valsOf_utilizationByType (rs : List Resource) (t : String) :
    valsOf (utilizationByType rs) t =
      (rs.filter (fun r => utilTruthy r && decide (r.resource_type = t))).map
        (fun r => uGet r "cpu_percent") := by
  rw [utilizationByType, valsOf_utilizationByType_foldl]
  simp [valsOf, alookup]

/-- Pulling a constant factor out of a summed per-resource product. -/
theorem sum_map_cost_mul (l : List Resource) (c : ℚ) :
    (l.map (fun r => r.cost * c)).sum = c * (l.map (fun r => r.cost)).sum := by
  induction l with
  | nil => simp
  | cons r rs ih => simp [ih]; ring

/-! ### Example inputs used by counterexamples and witnesses -/

/-- A resource whose only lifecycle hint is `metadata.state = "deallocated"`. -/
def exDealloc : Resource :=
  { resource_id := "r-dealloc", resource_type := "EC2", region := "us-east-1", cost := 5,
    tags := [], utilization := none, metadata := some [("state", MetaVal.str "deallocated")] }

/-- A resource with `metadata.state = "stopped"`. -/
def exStopped : Resource :=
  { resource_id := "r-stopped", resource_type := "EC2", region := "us-east-1", cost := 5,
    tags := [], utilization := none, metadata := some [("state", MetaVal.str "stopped")] }

/-- Scenario 3 of the spec: a dev-tagged resource with zero utilization and
cost 100. -/
def exScenario3 : Resource :=
  { resource_id := "r-idle-dev", resource_type := "EC2", region := "us-east-1", cost := 100,
    tags := [("environment", "dev")],
    utilization := some [("cpu_percent", 0), ("invocations", 0)], metadata := none }

/-- An idle dev-tagged resource too cheap to clear the default threshold. -/
def exSmallIdle : Resource :=
  { resource_id := "r-idle-small", resource_type := "EC2", region := "us-east-1", cost := 10,
    tags := [("environment", "dev")],
    utilization := some [("cpu_percent", 0), ("invocations", 0)], metadata := none }

/-- A resource reporting 5% cpu. -/
def exUnder : Resource :=
  { resource_id := "r-under", resource_type := "EC2", region := "us-east-1", cost := 20,
    tags := [], utilization := some [("cpu_percent", 5)], metadata := none }

/-- A resource with a present but empty utilization mapping. -/
def exEmptyUtil : Resource :=
  { resource_id := "r-empty", resource_type := "EC2", region := "us-east-1", cost := 5,
    tags := [], utilization := some [], metadata := none }

/-- A resource with a non-empty utilization mapping holding neither
`cpu_percent` nor `invocations`. -/
def exMemUtil : Resource :=
  { resource_id := "r-mem", resource_type := "EC2", region := "us-east-1", cost := 5,
    tags := [], utilization := some [("memory_percent", 3)], metadata := none }

/-! ### Claims about the resource analyzer -/

/-- The metadata rule exactly as the spec sentence states it (one shared
value set for both fields), transcribed for comparison against the
source's `unusedByMetadata`. -/
def specUnusedByMetadata (r : Resource) : Bool :=
  ["stopped", "terminated", "deallocated"].contains (pyLower (mGetStr r "state")) ||
  ["stopped", "terminated", "deallocated"].contains (pyLower (mGetStr r "status"))

/-- Claim C2, counterexample: a resource with metadata
`state = "deallocated"` satisfies the claimed shared-set metadata rule but
is not classified unused by the code, whose per-field sets are
`state ∈ \x7bstopped, terminated\x7d` and `status ∈ \x7bstopped, deallocated\x7d`. -/
theorem unused_metadata_rule_counterexample :
    exDealloc.metadata.isSome = true ∧
    specUnusedByMetadata exDealloc = true ∧
    unusedByMetadata exDealloc = false ∧
    findUnusedResources [exDealloc] = [] := by decide

/-- Claim C2 (amended): a resource with truthy metadata is classified
unused by the metadata rule exactly when its lowercased `state` is
`stopped` or `terminated`, or its lowercased `status` is `stopped` or
`deallocated`; any resource matched by the metadata rule is in the unused
list. -/
theorem unused_metadata_rule_amended (resources : List Resource) (r : Resource)
    (hr : r ∈ resources) :
    (unusedByMetadata r = true ↔
      metaTruthy r = true ∧
        (pyLower (mGetStr r "state") = "stopped" ∨ pyLower (mGetStr r "state") = "terminated" ∨
          pyLower (mGetStr r "status") = "stopped" ∨
          pyLower (mGetStr r "status") = "deallocated")) ∧
    (unusedByMetadata r = true → r ∈ findUnusedResources resources) := by
  constructor
  · rw [unusedByMetadata]
    simp only [List.contains_cons, List.contains_nil, Bool.and_eq_true, Bool.or_eq_true,
      Bool.or_eq_false_iff, beq_iff_eq]
    constructor
    · rintro ⟨hm, h⟩
      exact ⟨hm, by tauto⟩
    · rintro ⟨hm, h⟩
      exact ⟨hm, by tauto⟩
  · intro h
    rw [findUnusedResources, List.mem_filter]
    exact ⟨hr, by simp [h]⟩

/-- Claim C2 (amended), witness: a `state = "stopped"` resource lands in
the unused list. -/
theorem unused_metadata_rule_amended_witness :
    exStopped ∈ findUnusedResources [exStopped] :=
  (unused_metadata_rule_amended [exStopped] exStopped (by decide)).2 (by decide)

/-- Claim C4: the idle list and the zero-utilization subset of the unused
list are set-equal, for every input and threshold. -/
theorem idle_eq_zero_util_subset_of_unused (cpu_threshold : ℚ) (resources : List Resource)
    (r : Resource) :
    r ∈ (resourceAnalyze cpu_threshold resources).idle_resources ↔
      r ∈ (resourceAnalyze cpu_threshold resources).unused_resources ∧
        zeroUtilization r = true := by
  simp only [resourceAnalyze, findIdleResources, findUnusedResources, List.mem_filter]
  constructor
  · rintro ⟨hmem, hz⟩
    exact ⟨⟨hmem, by simp [hz]⟩, hz⟩
  · rintro ⟨⟨hmem, _⟩, hz⟩
    exact ⟨hmem, hz⟩

/-- Claim C4, witness: a concrete zero-utilization resource is in the idle
list because it is in the unused list with zero utilization. -/
theorem idle_eq_zero_util_subset_of_unused_witness :
    exScenario3 ∈ (resourceAnalyze 10 [exScenario3]).idle_resources :=
  (idle_eq_zero_util_subset_of_unused 10 [exScenario3] exScenario3).mpr ⟨by decide, by decide⟩

/-- Claim C8: membership in the underutilized list is exactly "utilization
present and `0 < cpu_percent < cpu_threshold`"; a zero-cpu resource is
never underutilized, and the underutilized and idle lists are disjoint. -/
theorem underutilized_iff_strict_bounds (cpu_threshold : ℚ) (resources : List Resource)
    (r : Resource) :
    (r ∈ (resourceAnalyze cpu_threshold resources).underutilized_resources ↔
      r ∈ resources ∧ r.utilization.isSome = true ∧
        0 < uGet r "cpu_percent" ∧ uGet r "cpu_percent" < cpu_threshold) ∧
    (uGet r "cpu_percent" = 0 →
      r ∉ (resourceAnalyze cpu_threshold resources).underutilized_resources) ∧
    (r ∈ (resourceAnalyze cpu_threshold resources).underutilized_resources →
      r ∉ (resourceAnalyze cpu_threshold resources).idle_resources) := by
  have hcore : r ∈ (resourceAnalyze cpu_threshold resources).underutilized_resources ↔
      r ∈ resources ∧ utilTruthy r = true ∧
        0 < uGet r "cpu_percent" ∧ uGet r "cpu_percent" < cpu_threshold := by
    simp only [resourceAnalyze, findUnderutilizedResources, List.mem_filter,
      Bool.and_eq_true, decide_eq_true_eq]
    tauto
  have hbridge : (utilTruthy r = true ∧ 0 < uGet r "cpu_percent") ↔
      (r.utilization.isSome = true ∧ 0 < uGet r "cpu_percent") := by
    cases hu : r.utilization with
    | none => simp [utilTruthy, hu]
    | some u =>
      cases u with
      | nil => simp [utilTruthy, hu, uGet, dictGet, alookup]
      | cons p ps => simp [utilTruthy, hu]
  refine ⟨?_, ?_, ?_⟩
  · rw [hcore]
    constructor
    · rintro ⟨hm, ht, hpos, hlt⟩
      exact ⟨hm, (hbridge.mp ⟨ht, hpos⟩).1, hpos, hlt⟩
    · rintro ⟨hm, hs, hpos, hlt⟩
      exact ⟨hm, (hbridge.mpr ⟨hs, hpos⟩).1, hpos, hlt⟩
  · intro h0 hmem
    have := (hcore.mp hmem).2.2.1
    rw [h0] at this
    exact lt_irrefl 0 this
  · intro hmem hidle
    have hpos := (hcore.mp hmem).2.2.1
    rw [resourceAnalyze] at hidle
    simp only [findIdleResources, List.mem_filter] at hidle
    have hz := hidle.2
    rw [zeroUtilization] at hz
    simp only [Bool.and_eq_true, decide_eq_true_eq] at hz
    rw [hz.1.2] at hpos
    exact lt_irrefl 0 hpos

/-- Claim C8, witness: a 5%-cpu resource is underutilized at the default
threshold 10. -/
theorem underutilized_iff_strict_bounds_witness :
    exUnder ∈ (resourceAnalyze 10 [exUnder]).underutilized_resources :=
  (underutilized_iff_strict_bounds 10 [exUnder] exUnder).1.mpr
    ⟨by decide, by decide, by decide, by decide⟩

/-- Claim C9: the embedded analyzers and optimizer are functions of their
inputs, so two calls on the same input return identical outputs. -/
theorem analyzers_deterministic (cost_data : CostData) (cpu_threshold savings_threshold : ℚ)
    (cost_analysis : CostAnalysis) (resource_analysis : ResourceAnalysis)
    (resources : List Resource) :
    costAnalyze cost_data = costAnalyze cost_data ∧
    resourceAnalyze cpu_threshold resources = resourceAnalyze cpu_threshold resources ∧
    getRecommendations savings_threshold cost_analysis resource_analysis resources =
      getRecommendations savings_threshold cost_analysis resource_analysis resources :=
  ⟨rfl, rfl, rfl⟩

/-- Claim C10, counterexample: a present-but-empty utilization mapping is
falsy in the source's guards, so the resource is skipped: it is in neither
the idle nor the unused list and contributes no utilization sample,
contrary to the claim. -/
theorem empty_utilization_counterexample :
    exEmptyUtil.utilization.isSome = true ∧
    findIdleResources [exEmptyUtil] = [] ∧
    findUnusedResources [exEmptyUtil] = [] ∧
    utilizationByType [exEmptyUtil] = [] := by decide

/-- Claim C10 (amended): for a resource whose utilization mapping is
present *and non-empty*, missing `cpu_percent`/`invocations` keys are read
as 0: it is placed in both the idle and unused lists, satisfies the
`cpu < 30` test of the overprovisioned rule, and contributes a 0 sample to
its type's average-utilization computation. -/
theorem nonempty_utilization_defaults_amended (resources : List Resource) (r : Resource)
    (u : List (String × ℚ)) (hr : r ∈ resources) (hu : r.utilization = some u)
    (hne : u ≠ []) (hcpu : alookup "cpu_percent" u = none)
    (hinv : alookup "invocations" u = none) :
    uGet r "cpu_percent" = 0 ∧ uGet r "invocations" = 0 ∧
    r ∈ findIdleResources resources ∧ r ∈ findUnusedResources resources ∧
    uGet r "cpu_percent" < 30 ∧
    (0 : ℚ) ∈ valsOf (utilizationByType resources) r.resource_type := by
  have hc : uGet r "cpu_percent" = 0 := by simp [uGet, hu, dictGet, hcpu]
  have hi : uGet r "invocations" = 0 := by simp [uGet, hu, dictGet, hinv]
  have htruthy : utilTruthy r = true := by
    cases u with
    | nil => exact absurd rfl hne
    | cons p ps => simp [utilTruthy, hu]
  have hz : zeroUtilization r = true := by simp [zeroUtilization, htruthy, hc, hi]
  refine ⟨hc, hi, ?_, ?_, ?_, ?_⟩
  · rw [findIdleResources, List.mem_filter]
    exact ⟨hr, hz⟩
  · rw [findUnusedResources, List.mem_filter]
    exact ⟨hr, by simp [hz]⟩
  · rw [hc]
    norm_num
  · rw [valsOf_utilizationByType]
    have hfm : r ∈ resources.filter
        (fun x => utilTruthy x && decide (x.resource_type = r.resource_type)) :=
      List.mem_filter.mpr ⟨hr, by simp [htruthy]⟩
    have hmap : uGet r "cpu_percent" ∈ List.map (fun x => uGet x "cpu_percent")
        (resources.filter (fun x => utilTruthy x && decide (x.resource_type = r.resource_type))) :=
      List.mem_map_of_mem (fun x => uGet x "cpu_percent") hfm
    rw [hc] at hmap
    exact hmap

/-- Claim C10 (amended), witness: a resource reporting only
`memory_percent` is idle, unused, below the cpu-30 bound, and contributes
a 0 sample. -/
theorem nonempty_utilization_defaults_amended_witness :
    uGet exMemUtil "cpu_percent" = 0 ∧ uGet exMemUtil "invocations" = 0 ∧
    exMemUtil ∈ findIdleResources [exMemUtil] ∧
    exMemUtil ∈ findUnusedResources [exMemUtil] ∧
    uGet exMemUtil "cpu_percent" < 30 ∧
    (0 : ℚ) ∈ valsOf (utilizationByType [exMemUtil]) exMemUtil.resource_type :=
  nonempty_utilization_defaults_amended [exMemUtil] exMemUtil [("memory_percent", 3)]
    (by decide) rfl (by decide) (by decide) (by decide)

/-! ### Claims about the optimizer and the cost analyzer -/

/-- Scenario 1 of the spec: one stopped compute instance (`EC2`, the
source's tag for the spec's compute-instance family) costing 60. -/
def exScenario1 : Resource :=
  { resource_id := "i-100", resource_type := "EC2", region := "us-east-1", cost := 60,
    tags := [], utilization := none, metadata := some [("state", MetaVal.str "stopped")] }

/-- Cost data carrying only the scenario-1 resource. -/
def exCostData1 : CostData :=
  { start_date := 0, end_date := 1, total_cost := 0, costs_by_service := [],
    costs_by_region := [], resources := [exScenario1] }

/-- The single recommendation the scenario-1 pipeline produces. -/
def exRec1 : OptimizationRecommendation :=
  { title := "Terminate Unused EC2 Resources"
    description := "Found 1 unused EC2 resources that can be terminated"
    recommendation_type := .terminate_unused
    priority := .medium
    estimated_savings := 60
    action := "Terminate 1 unused EC2 resources"
    resources := ["i-100"]
    risk_level := "low" }

/-- Cost data with zero total but a non-empty service map. -/
def exCostDataZero : CostData :=
  { start_date := 0, end_date := 1, total_cost := 0, costs_by_service := [("svcA", 5)],
    costs_by_region := [], resources := [] }

/-- Scenario 2 of the spec: services of cost 500 and 9000, total 9500. -/
def exCostDataTwo : CostData :=
  { start_date := 0, end_date := 1, total_cost := 9500,
    costs_by_service := [("svcB", 500), ("svcA", 9000)], costs_by_region := [], resources := [] }

/-- Claim C1: every returned recommendation clears the savings threshold;
the output is sorted descending by estimated savings; and the sort is
stable: for each savings value, the output's recommendations with that
value are exactly the threshold-filtered generated ones, in generation
order. -/
theorem getRecommendations_threshold_sorted_stable (savings_threshold : ℚ)
    (cost_analysis : CostAnalysis) (resource_analysis : ResourceAnalysis)
    (resources : List Resource) :
    (∀ rec ∈ getRecommendations savings_threshold cost_analysis resource_analysis resources,
      savings_threshold ≤ rec.estimated_savings) ∧
    (getRecommendations savings_threshold cost_analysis resource_analysis resources).Pairwise
      (fun a b => b.estimated_savings ≤ a.estimated_savings) ∧
    (∀ s : ℚ,
      (getRecommendations savings_threshold cost_analysis resource_analysis resources).filter
          (fun rec => decide (rec.estimated_savings = s)) =
        ((generatedRecommendations savings_threshold resource_analysis resources).filter
            (fun rec => decide (savings_threshold ≤ rec.estimated_savings))).filter
          (fun rec => decide (rec.estimated_savings = s))) := by
  refine ⟨?_, ?_, ?_⟩
  · intro rec hrec
    rw [getRecommendations] at hrec
    have h1 := mem_sortByKeyDesc.mp hrec
    rw [List.mem_filter] at h1
    exact of_decide_eq_true h1.2
  · rw [getRecommendations]
    exact sortByKeyDesc_pairwise _ _
  · intro s
    rw [getRecommendations]
    exact filter_key_sortByKeyDesc
      (fun rec : OptimizationRecommendation => rec.estimated_savings) s _

/-- Claim C1, witness: the scenario-1 recommendation is in the output and
clears the threshold 50. -/
theorem getRecommendations_threshold_sorted_stable_witness :
    exRec1 ∈ getRecommendations 50 (costAnalyze exCostData1) (resourceAnalyze 10 [exScenario1])
        [exScenario1] ∧
    (50 : ℚ) ≤ exRec1.estimated_savings :=
  ⟨by decide,
   (getRecommendations_threshold_sorted_stable 50 (costAnalyze exCostData1)
      (resourceAnalyze 10 [exScenario1]) [exScenario1]).1 exRec1 (by decide)⟩

/-- Claim C3: the full pipeline on one stopped `EC2` instance costing 60
with threshold 50 returns exactly one terminate-unused recommendation with
savings 60, medium priority, and low risk. -/
theorem scenario_one_stopped_instance :
    (getRecommendations 50 (costAnalyze exCostData1) (resourceAnalyze 10 [exScenario1])
        [exScenario1]).map
      (fun rec => (rec.recommendation_type, rec.estimated_savings, rec.priority,
        rec.risk_level)) =
    [(RecommendationType.terminate_unused, (60 : ℚ), RecommendationPriority.medium, "low")] := by
  decide

/-- Claim C5: the top-cost-driver list has length at most 10, is sorted
descending by cost by a stable sort, each percentage is
`100 * cost / total_cost`, and a zero total yields an empty driver list. -/
theorem costAnalyze_top_drivers_spec (cost_data : CostData) :
    (costAnalyze cost_data).top_cost_drivers.length ≤ 10 ∧
    (costAnalyze cost_data).top_cost_drivers.Pairwise (fun a b => b.2.1 ≤ a.2.1) ∧
    (∀ e ∈ (costAnalyze cost_data).top_cost_drivers,
      e.2.2 = 100 * e.2.1 / cost_data.total_cost) ∧
    (cost_data.total_cost = 0 → (costAnalyze cost_data).top_cost_drivers = []) ∧
    (∀ c : ℚ,
      (sortByKeyDesc (fun p => p.2) cost_data.costs_by_service).filter
          (fun p => decide (p.2 = c)) =
        cost_data.costs_by_service.filter (fun p => decide (p.2 = c))) ∧
    (cost_data.total_cost ≠ 0 →
      (costAnalyze cost_data).top_cost_drivers.map (fun e => (e.1, e.2.1)) =
        (sortByKeyDesc (fun p => p.2) cost_data.costs_by_service).take 10) := by
  have hdriver : (costAnalyze cost_data).top_cost_drivers =
      getTopCostDrivers cost_data.costs_by_service cost_data.total_cost := rfl
  refine ⟨?_, ?_, ?_, ?_, ?_, ?_⟩
  · rw [hdriver, getTopCostDrivers]
    by_cases h : cost_data.total_cost = 0
    · simp [h]
    · rw [if_neg h, List.length_map, List.length_take]
      omega
  · rw [hdriver, getTopCostDrivers]
    by_cases h : cost_data.total_cost = 0
    · simp [h]
    · rw [if_neg h, List.pairwise_map]
      have hsorted := sortByKeyDesc_pairwise (fun p : String × ℚ => p.2)
        cost_data.costs_by_service
      exact (List.Pairwise.sublist (List.take_sublist 10 _) hsorted).imp (fun h => h)
  · intro e he
    rw [hdriver, getTopCostDrivers] at he
    by_cases h : cost_data.total_cost = 0
    · rw [if_pos h] at he
      simp at he
    · rw [if_neg h, List.mem_map] at he
      obtain ⟨p, hp, rfl⟩ := he
      show p.2 / cost_data.total_cost * 100 = 100 * p.2 / cost_data.total_cost
      ring
  · intro h
    rw [hdriver, getTopCostDrivers, if_pos h]
  · intro c
    exact filter_key_sortByKeyDesc (fun p : String × ℚ => p.2) c _
  · intro h
    rw [hdriver, getTopCostDrivers, if_neg h, List.map_map]
    have hcomp : ((fun e : String × ℚ × ℚ => (e.1, e.2.1)) ∘
        fun p : String × ℚ => (p.1, p.2, p.2 / cost_data.total_cost * 100)) = id := by
      funext p
      rfl
    rw [hcomp, List.map_id]

/-- Claim C5, witness: a zero total with a non-empty service map yields an
empty driver list, and scenario 2's drivers project to the first 10 of the
stable descending sort. -/
theorem costAnalyze_top_drivers_spec_witness :
    (costAnalyze exCostDataZero).top_cost_drivers = [] ∧
    (costAnalyze exCostDataTwo).top_cost_drivers.map (fun e => (e.1, e.2.1)) =
      (sortByKeyDesc (fun p => p.2) exCostDataTwo.costs_by_service).take 10 :=
  ⟨(costAnalyze_top_drivers_spec exCostDataZero).2.2.2.1 rfl,
   (costAnalyze_top_drivers_spec exCostDataTwo).2.2.2.2.2 (by decide)⟩

/-- Claim C6, counterexample: an idle dev-tagged resource costing 10
survives the non-production filter, yet with the default threshold 50 the
stop-idle generator emits nothing, because it also gates on
`total_savings >= savings_threshold`. -/
theorem stop_idle_below_threshold_counterexample :
    (findIdleResources [exSmallIdle]).filter isNonProduction ≠ [] ∧
    recommendStopIdle 50 (findIdleResources [exSmallIdle]) = [] := by decide

/-- Claim C6 (amended): the stop-idle generator filters the idle list by
the environment-tag rule and, when the filtered list is non-empty *and*
70% of its summed cost is at least the savings threshold, emits exactly
one recommendation with those savings, medium priority, and low risk;
otherwise it emits nothing. -/
theorem stop_idle_amended (savings_threshold : ℚ) (idle_resources : List Resource) :
    (∀ r : Resource, isNonProduction r = true ↔
      (pyLower (dictGet r.tags "environment" "") ∈
          ["dev", "development", "test", "staging", "qa"] ∨
        pyLower (dictGet r.tags "Environment" "") ∈
          ["dev", "development", "test", "staging", "qa"] ∨
        pyLower (dictGet r.tags "env" "") ∈
          ["dev", "development", "test", "staging", "qa"])) ∧
    (idle_resources.filter isNonProduction ≠ [] →
      savings_threshold ≤
        (7 / 10 : ℚ) * ((idle_resources.filter isNonProduction).map (fun r => r.cost)).sum →
      (recommendStopIdle savings_threshold idle_resources).map
          (fun rec => (rec.recommendation_type, rec.estimated_savings, rec.priority,
            rec.risk_level, rec.resources)) =
        [(RecommendationType.stop_idle,
          (7 / 10 : ℚ) * ((idle_resources.filter isNonProduction).map (fun r => r.cost)).sum,
          RecommendationPriority.medium, "low",
          (idle_resources.filter isNonProduction).map (fun r => r.resource_id))]) ∧
    ((7 / 10 : ℚ) * ((idle_resources.filter isNonProduction).map (fun r => r.cost)).sum <
        savings_threshold →
      recommendStopIdle savings_threshold idle_resources = []) ∧
    (idle_resources.filter isNonProduction = [] →
      recommendStopIdle savings_threshold idle_resources = []) := by
  refine ⟨?_, ?_, ?_, ?_⟩
  · intro r
    rw [isNonProduction]
    simp only [List.contains_cons, List.contains_nil, Bool.or_eq_true, beq_iff_eq,
      List.mem_cons, List.not_mem_nil]
    tauto
  · intro hne hge
    simp only [recommendStopIdle]
    have h1 : (idle_resources.filter isNonProduction).isEmpty = false := by
      cases hfi : idle_resources.filter isNonProduction with
      | nil => exact absurd hfi hne
      | cons a l => rfl
    rw [if_neg (by simp [h1]), sum_map_cost_mul, if_pos (by exact_mod_cast decide_eq_true hge)]
    rfl
  · intro hlt
    simp only [recommendStopIdle]
    by_cases h1 : (idle_resources.filter isNonProduction).isEmpty
    · rw [if_pos h1]
    · rw [if_neg h1, sum_map_cost_mul, if_neg]
      simp only [decide_eq_true_eq]
      exact not_le.mpr hlt
  · intro hnil
    simp only [recommendStopIdle]
    rw [if_pos]
    simp [hnil]

/-- Claim C6 (amended), witness: scenario 3 — one idle dev-tagged resource
costing 100 at threshold 50 yields one stop-idle recommendation saving
70. -/
theorem stop_idle_amended_witness :
    (recommendStopIdle 50 [exScenario3]).map
        (fun rec => (rec.recommendation_type, rec.estimated_savings, rec.priority,
          rec.risk_level, rec.resources)) =
      [(RecommendationType.stop_idle, (70 : ℚ), RecommendationPriority.medium, "low",
        ["r-idle-dev"])] := by
  have h := (stop_idle_amended 50 [exScenario3]).2.1 (by decide) (by decide)
  rw [h]
  decide

/-- Claim C7: filtering the anomaly list to `high_service_cost` entries
yields exactly one info-severity anomaly per service whose cost is
strictly greater than 3 times the average service cost (total divided by
the number of services, 0 when there are none). -/
theorem high_service_cost_anomalies_exact (cost_data : CostData) :
    (costAnalyze cost_data).anomalies.filter (fun a => decide (a.atype = "high_service_cost")) =
      cost_data.costs_by_service.filterMap
        (fun p =>
          if decide ((if cost_data.costs_by_service.isEmpty then 0
              else cost_data.total_cost / (cost_data.costs_by_service.length : ℚ)) * 3 <
                p.2) then
            some { atype := "high_service_cost", severity := "info", service := some p.1,
                   value := p.2 }
          else none) := by
  have hanom : (costAnalyze cost_data).anomalies = detectAnomalies cost_data := rfl
  rw [hanom]
  simp only [detectAnomalies]
  rw [List.filter_append]
  have h1 : (if decide (10000 < cost_data.total_cost) then
      [{ atype := "high_total_cost", severity := "warning", service := none,
         value := cost_data.total_cost }]
    else ([] : List Anomaly)).filter (fun a => decide (a.atype = "high_service_cost")) = [] := by
    split_ifs with h
    · rfl
    · rfl
  rw [h1, List.nil_append]
  apply List.filter_eq_self.mpr
  intro a ha
  rw [List.mem_filterMap] at ha
  obtain ⟨p, hp, hfa⟩ := ha
  by_cases hc : decide ((if cost_data.costs_by_service.isEmpty then 0
      else cost_data.total_cost / (cost_data.costs_by_service.length : ℚ)) * 3 < p.2) = true
  · rw [if_pos hc] at hfa
    injection hfa with h
    subst h
    rfl
  · rw [if_neg hc] at hfa
    exact Option.noConfusion hfa

end CloudFinops
